import Mathlib

/-!
Shallow embedding of the ScribeAI live audio-chunk recording pipeline.

Server side (src/server):
* services/audioProcessor.ts — processAudioChunk, generateSummary
* services/sessionService.ts — createSession, updateSessionStatus,
  updateSessionDuration, addTranscript, logError
* socket/recording.ts — start-recording / audio-chunk / stop-recording /
  disconnect handlers (the file contains three successive revisions of the
  handler set; the embedding follows the latest, most defensive revision,
  which is the one the specification describes: recovery check on chunk
  mismatch, idempotent stop, status-checked disconnect).

Client side (src/src):
* stores/recordingStore.ts — transcript assembler and timer actions
* hooks/useSocket.ts and lib/socket-client — the emit request/ack wrapper.

External capabilities (Gemini transcription and summarization calls, the
Prisma database engine, socket.io wire transport) are modelled as explicit
outcome parameters: a handler is a pure function of its inputs, the current
database value and the outcome of the external call it performs.
JS fractional confidence values (0.95, 0.0) are represented in hundredths
as naturals (95, 0); the JS falsy test `x || 0.95` on a confidence value
is falsy exactly on `undefined` and `0`, which the model mirrors on
`Option Nat` as `none` and `some 0`.
-/

namespace ScribeAI

/-- Lifecycle status of a recording session, from the Prisma SessionStatus
enum used by sessionService.ts and recording.ts. -/
inductive SessionStatus where
  | RECORDING
  | PAUSED
  | PROCESSING
  | COMPLETED
  | FAILED
deriving DecidableEq, Repr

/-- One persisted recording-session row (the fields of recordingSession that
the handlers under verification read or write). -/
structure SessionRec where
  userId : String
  status : SessionStatus
  duration : Option Nat
  fullTranscript : Option String
deriving DecidableEq, Repr

/-- One persisted transcript row, as written by addTranscript in
sessionService.ts. Confidence is in hundredths (0.95 becomes 95). -/
structure TranscriptRow where
  sessionId : String
  text : String
  chunkIndex : Nat
  timestamp : Nat
  confidence : Option Nat
deriving DecidableEq, Repr

/-- Structured summary object returned by generateSummary in
audioProcessor.ts. -/
structure SummaryResult where
  fullSummary : String
  keyPoints : List String
  actionItems : List String
  decisions : List String
deriving DecidableEq, Repr

/-- The persisted state the socket handlers touch: recordingSession rows
keyed by id, transcript rows, summary rows, and the error log. -/
structure Db where
  sessions : List (String × SessionRec)
  transcripts : List TranscriptRow
  summaries : List (String × SummaryResult)
  errorLogs : List (String × String)
deriving DecidableEq, Repr

/-- Per-connection socket state: the authenticated user (socket.data.userId,
set by the auth middleware before any handler runs) and the bound session
(socket.data.currentSessionId). -/
structure Conn where
  userId : String
  currentSessionId : Option String
deriving DecidableEq, Repr

/-- Acknowledgement sent through the socket callback:
`{success:true}` or `{success:false, error}`. -/
inductive Ack where
  | ok
  | err (msg : String)
deriving DecidableEq, Repr

/-- Payload of a transcription-update broadcast to the session room. -/
structure TranscriptionUpdate where
  sessionId : String
  chunkIndex : Nat
  text : String
  timestamp : Nat
  confidence : Nat
deriving DecidableEq, Repr

/-- Db lookup `db.recordingSession.findUnique({where:{id}})`. -/
def findSession (db : Db) (id : String) : Option SessionRec :=
  (db.sessions.find? (fun p => p.1 == id)).map (fun p => p.2)

/-- Status update from sessionService.ts updateSessionStatus (the
recordingEndedAt timestamp it also sets is not read by any handler under
verification and is omitted). -/
def updateSessionStatus (db : Db) (id : String) (st : SessionStatus) : Db :=
  { db with
    sessions := db.sessions.map
      (fun p => if p.1 == id then (p.1, { p.2 with status := st }) else p) }

/-- Duration update from sessionService.ts updateSessionDuration. -/
def updateSessionDuration (db : Db) (id : String) (d : Nat) : Db :=
  { db with
    sessions := db.sessions.map
      (fun p => if p.1 == id then (p.1, { p.2 with duration := some d }) else p) }

/-- Error-log insert from sessionService.ts logError. -/
def logError (db : Db) (sessionId errorType : String) : Db :=
  { db with errorLogs := db.errorLogs ++ [(sessionId, errorType)] }

/-- Transcription result returned by processAudioChunk
(`{ text, confidence? }`), confidence in hundredths. -/
structure TranscriptionResult where
  text : String
  confidence : Option Nat
deriving DecidableEq, Repr

/-- Model of audioProcessor.ts processAudioChunk. The Gemini call is the
external capability: `geminiOutcome = some t` means the model call returned
response text trimming to `t`, `none` means it threw (caught by the catch
branch). On success the function returns the text with confidence 0.95 and
persists a transcript row only when the text is nonempty (the source guard
"Only save if there is actual text"); on failure it returns empty text with
confidence 0.0 and persists nothing. The returned pair is the transcription
result and the transcript row written, if any. -/
def processAudioChunk (sessionId : String) (chunkIndex timestamp : Nat)
    (geminiOutcome : Option String) :
    TranscriptionResult × Option TranscriptRow :=
  match geminiOutcome with
  | some t =>
      (⟨t, some 95⟩,
        if t.length > 0 then
          some ⟨sessionId, t, chunkIndex, timestamp, some 95⟩
        else none)
  | none => (⟨"", some 0⟩, none)

/-- Model of the JS `String.prototype.trim()` call used by generateSummary:
strip leading and trailing whitespace. -/
def jsTrim (s : String) : String :=
  String.mk (((s.data.dropWhile Char.isWhitespace).reverse.dropWhile
    Char.isWhitespace).reverse)

/-- Canned summary returned by generateSummary for transcripts under 20
trimmed characters. -/
def tooShortSummary : SummaryResult :=
  ⟨"The recording was too short or empty to generate a summary.", [], [], []⟩

/-- Fallback summary returned by generateSummary when the model call
throws. -/
def failedSummary : SummaryResult :=
  ⟨"Failed to generate summary.", [], [], []⟩

/-- Model of audioProcessor.ts generateSummary. The Vercel generateObject
call is the external capability: `modelOutcome = some o` means it returned
the structured object `o`, `none` means it threw (caught by the catch
branch). The source guard is `!fullTranscript || fullTranscript.trim().length < 20`;
the function is total: every input, including a failing model call, maps to
a summary object. -/
def generateSummary (fullTranscript : String)
    (modelOutcome : Option SummaryResult) : SummaryResult :=
  if fullTranscript = "" ∨ (jsTrim fullTranscript).length < 20 then
    tooShortSummary
  else
    match modelOutcome with
    | some o => o
    | none => failedSummary

/-- Broadcast confidence from recording.ts: `transcription.confidence || 0.95`.
JS `||` takes the default exactly when the value is falsy, that is
`undefined` (none) or `0` (some 0). -/
def confidenceOrDefault (c : Option Nat) : Nat :=
  match c with
  | none => 95
  | some 0 => 95
  | some v => v

/-- Model of the start-recording handler (latest revision of
recording.ts). It performs no check of an already-bound session: it
unconditionally creates a fresh RECORDING session row (createSession),
re-binds socket.data.currentSessionId to the new id, joins the room and
acknowledges success. `newId` is the server-assigned id of the created row.
The failure branch (db error, unauthenticated socket) is not taken on the
modelled success path. Returns the new connection state, new db, and ack. -/
def startRecordingHandler (conn : Conn) (db : Db) (newId : String) :
    Conn × Db × Ack :=
  let sess : SessionRec :=
    { userId := conn.userId, status := .RECORDING,
      duration := none, fullTranscript := none }
  ({ conn with currentSessionId := some newId },
   { db with sessions := db.sessions ++ [(newId, sess)] },
   Ack.ok)

/-- Result of the audio-chunk handler: connection state after any
re-binding, db after any persistence, the ack, and the
transcription-update broadcast if one was emitted. -/
structure ChunkHandlerResult where
  conn : Conn
  db : Db
  ack : Ack
  emitted : Option TranscriptionUpdate
deriving DecidableEq, Repr

/-- Model of the audio-chunk handler (latest revision of recording.ts,
"WITH RECOVERY"). If the declared session id differs from the bound one,
the handler looks the session up; when it exists, its userId equals the
socket's authenticated userId (the source compares
String(session.userId).trim() with String(socketUserId).trim(), which for
present string ids is string equality) and its status is RECORDING or
PAUSED, the connection is re-bound and processing continues; otherwise the
handler throws "Session ID mismatch or invalid session", caught by the
catch branch which acknowledges failure. On the processing path the chunk
goes to processAudioChunk, the resulting row (if any) is persisted, a
transcription-update with `confidence || 0.95` is broadcast, and success is
acknowledged. -/
def audioChunkHandler (conn : Conn) (db : Db) (sessionId : String)
    (chunkIndex timestamp : Nat) (geminiOutcome : Option String) :
    ChunkHandlerResult :=
  let bound : Option Conn :=
    if conn.currentSessionId = some sessionId then some conn
    else
      match findSession db sessionId with
      | some s =>
          if s.userId = conn.userId ∧
              (s.status = .RECORDING ∨ s.status = .PAUSED) then
            some { conn with currentSessionId := some sessionId }
          else none
      | none => none
  match bound with
  | none => ⟨conn, db, Ack.err "Session ID mismatch or invalid session", none⟩
  | some conn2 =>
      let pr := processAudioChunk sessionId chunkIndex timestamp geminiOutcome
      let db2 : Db :=
        match pr.2 with
        | some row => { db with transcripts := db.transcripts ++ [row] }
        | none => db
      ⟨conn2, db2, Ack.ok,
        some ⟨sessionId, chunkIndex, pr.1.text, timestamp,
          confidenceOrDefault pr.1.confidence⟩⟩

/-- Ordering of transcript rows used by the stop background job
(`orderBy: { chunkIndex: "asc" }`). -/
def rowLE (a b : TranscriptRow) : Prop := a.chunkIndex ≤ b.chunkIndex

instance : DecidableRel rowLE := fun a b => Nat.decLe a.chunkIndex b.chunkIndex

/-- Transcript rows sorted ascending by chunk index. -/
def sortRowsByIndex (l : List TranscriptRow) : List TranscriptRow :=
  l.insertionSort rowLE

/-- Model of the background finalization job spawned by the stop handler:
fetch this session's transcript rows ordered by chunk index, join their
texts with a single space (`transcripts.map(t => t.text).join(" ")` — no
filtering of empty texts), generate the summary, persist the summary row,
and set the session's fullTranscript and COMPLETED status. `modelOutcome`
is the outcome of the summarization call; generateSummary absorbs a
failing call, so the job's catch branch (reachable only through db errors)
is not on the modelled path. -/
def stopBackgroundJob (db : Db) (sessionId : String)
    (modelOutcome : Option SummaryResult) : Db :=
  let rows := sortRowsByIndex
    (db.transcripts.filter (fun r => r.sessionId == sessionId))
  let fullTranscript := String.intercalate " " (rows.map (fun r => r.text))
  let summaryData := generateSummary fullTranscript modelOutcome
  { db with
    summaries := db.summaries ++ [(sessionId, summaryData)],
    sessions := db.sessions.map
      (fun p => if p.1 == sessionId then
        (p.1, { p.2 with fullTranscript := some fullTranscript,
                         status := .COMPLETED })
      else p) }

/-- Model of the stop-recording handler (latest revision of recording.ts).
It looks the session up; a missing session throws "Session not found"
(failure ack). A session already PROCESSING or COMPLETED is a duplicate
stop: success ack, no state change, no background job. Otherwise the
status is set to PROCESSING, the duration persisted, and the background
summarization job is started (fire-and-forget; the ack does not wait for
it). Returns the db as of the acknowledgement, the ack, and whether the
background job was started. -/
def stopRecordingHandler (db : Db) (sessionId : String) (duration : Nat) :
    Db × Ack × Bool :=
  match findSession db sessionId with
  | none => (db, Ack.err "Session not found", false)
  | some s =>
      if s.status = .PROCESSING ∨ s.status = .COMPLETED then
        (db, Ack.ok, false)
      else
        (updateSessionDuration (updateSessionStatus db sessionId .PROCESSING)
          sessionId duration,
         Ack.ok, true)

/-- Model of the disconnect handler (latest revision of recording.ts). If
the connection has a bound session, the session is looked up; only when
its status is RECORDING or PAUSED is it marked FAILED and a
CLIENT_DISCONNECTED error logged; a session already PROCESSING, COMPLETED
or FAILED is left untouched. -/
def disconnectHandler (conn : Conn) (db : Db) : Db :=
  match conn.currentSessionId with
  | none => db
  | some sessionId =>
      match findSession db sessionId with
      | some s =>
          if s.status = .RECORDING ∨ s.status = .PAUSED then
            logError (updateSessionStatus db sessionId .FAILED)
              sessionId "CLIENT_DISCONNECTED"
          else db
      | none => db

/-! Client side: stores/recordingStore.ts -/

/-- One transcript fragment held by the client store
(`{ chunkIndex, text, timestamp, confidence? }`). -/
structure TranscriptChunk where
  chunkIndex : Nat
  text : String
  timestamp : Nat
  confidence : Option Nat
deriving DecidableEq, Repr

/-- Comparator used by the store's sort
(`(a, b) => a.chunkIndex - b.chunkIndex`). -/
def chunkLE (a b : TranscriptChunk) : Prop := a.chunkIndex ≤ b.chunkIndex

instance : DecidableRel chunkLE := fun a b => Nat.decLe a.chunkIndex b.chunkIndex

instance : IsTotal TranscriptChunk chunkLE :=
  ⟨fun a b => Nat.le_total a.chunkIndex b.chunkIndex⟩

instance : IsTrans TranscriptChunk chunkLE :=
  ⟨fun _ _ _ h h2 => Nat.le_trans h h2⟩

/-- Fragments sorted ascending by chunk index, the model of
`[...chunks].sort((a, b) => a.chunkIndex - b.chunkIndex)`. -/
def sortByIndex (l : List TranscriptChunk) : List TranscriptChunk :=
  l.insertionSort chunkLE

/-- The assembler slice of the zustand store: the ordered fragment list and
the derived full-text view. -/
structure AssemblerState where
  transcriptChunks : List TranscriptChunk
  fullTranscript : String
deriving DecidableEq, Repr

/-- Assembler state of a freshly created / cleared store. -/
def emptyAssembler : AssemblerState := ⟨[], ""⟩

/-- Model of recordingStore.ts addTranscriptChunk: if a fragment with the
same chunk index already exists the state is returned unchanged; otherwise
the fragment is appended, the list re-sorted by chunk index, and the full
transcript recomputed as `newChunks.map(c => c.text).join(" ")` — every
fragment's text participates in the join, empty texts included. -/
def addTranscriptChunk (s : AssemblerState) (c : TranscriptChunk) :
    AssemblerState :=
  if s.transcriptChunks.any (fun x => x.chunkIndex == c.chunkIndex) then s
  else
    let newChunks := sortByIndex (s.transcriptChunks ++ [c])
    { transcriptChunks := newChunks,
      fullTranscript := String.intercalate " " (newChunks.map (fun x => x.text)) }

/-- Strict ordering of fragments by chunk index. -/
def chunkLT (a b : TranscriptChunk) : Prop := a.chunkIndex < b.chunkIndex

instance : IsAntisymm TranscriptChunk chunkLT :=
  ⟨fun _ _ h h2 => absurd h2 (Nat.lt_asymm h)⟩

/-- Well-formedness of an assembler state: fragments sorted by index,
indices pairwise distinct, and the full transcript derived from the list. -/
def GoodAssembler (s : AssemblerState) : Prop :=
  s.transcriptChunks.Sorted chunkLE ∧
  (s.transcriptChunks.map (fun c => c.chunkIndex)).Nodup ∧
  s.fullTranscript
    = String.intercalate " " (s.transcriptChunks.map (fun c => c.text))

/-- Timer slice of the zustand store: startTime (none while paused or
stopped), accumulatedTime in ms, and the derived elapsedTime in whole
seconds. Clock readings are passed explicitly where the source calls
Date.now(). -/
structure TimerState where
  startTime : Option Nat
  accumulatedTime : Nat
  elapsedTime : Nat
deriving DecidableEq, Repr

/-- Model of startTimer. -/
def startTimer (now : Nat) : TimerState :=
  ⟨some now, 0, 0⟩

/-- Model of pauseTimer: fold the running segment into accumulatedTime and
clear startTime; a no-op when not running. -/
def pauseTimer (now : Nat) (s : TimerState) : TimerState :=
  match s.startTime with
  | some st => { s with startTime := none,
                        accumulatedTime := s.accumulatedTime + (now - st) }
  | none => s

/-- Model of resumeTimer: restart the segment clock at the present moment,
keeping accumulatedTime. -/
def resumeTimer (now : Nat) (s : TimerState) : TimerState :=
  { s with startTime := some now }

/-- Model of updateElapsedTime: while running, recompute elapsed seconds as
`Math.floor((accumulatedTime + (now - startTime)) / 1000)`; a no-op while
paused or stopped. -/
def updateElapsedTime (now : Nat) (s : TimerState) : TimerState :=
  match s.startTime with
  | some st =>
      { s with elapsedTime := (s.accumulatedTime + (now - st)) / 1000 }
  | none => s

/-! Client side: hooks/useSocket.ts emit and the socket-client module. -/

/-- Client socket object state as far as emit can observe it: whether the
underlying transport is currently connected. -/
structure ClientSocket where
  connected : Bool
deriving DecidableEq, Repr

/-- Immediate disposition of an emit call. The useSocket emit wrapper
rejects up front only when the socket object is null
("Socket not initialized"); in every other case it hands the packet to
socket.io's emit. The socket-client configuration (autoConnect false,
reconnection true, no volatile flag) leaves socket.io's default packet
buffering in place, so a packet handed over while disconnected is queued
by the library until reconnection rather than failing. -/
inductive EmitStart where
  | rejectedImmediately (msg : String)
  | handedToSocket (buffered : Bool)
deriving DecidableEq, Repr

/-- Model of the guard at the top of useSocket.ts emit plus the hand-off to
socket.io. -/
def emitStart (socket : Option ClientSocket) : EmitStart :=
  match socket with
  | none => EmitStart.rejectedImmediately "Socket not initialized"
  | some s => EmitStart.handedToSocket (!s.connected)

/-- Whether the emit call failed immediately, before any packet hand-off. -/
def isImmediateReject : EmitStart → Bool
  | EmitStart.rejectedImmediately _ => true
  | EmitStart.handedToSocket _ => false

/-- Settlement of the emit promise by the acknowledgement callback. -/
inductive Settle where
  | resolved
  | rejected (msg : String)
deriving DecidableEq, Repr

/-- Model of the acknowledgement callback in useSocket.ts emit: the promise
settles only inside the callback socket.io invokes with the remote
acknowledgement; `response?.success` truthy resolves, anything else
rejects with `response?.error || "Socket emit failed"`. `resp = none`
models an acknowledgement whose payload is undefined. -/
def emitCallback (resp : Option (Bool × Option String)) : Settle :=
  match resp with
  | some (true, _) => Settle.resolved
  | some (false, e) =>
      Settle.rejected (match e with | some m => m | none => "Socket emit failed")
  | none => Settle.rejected "Socket emit failed"

end ScribeAI

namespace ScribeAI

theorem find?_update_self (l : List (String × SessionRec)) (id : String)
    (g : SessionRec → SessionRec) :
    ((l.map (fun p => if p.1 == id then (p.1, g p.2) else p)).find?
        (fun p => p.1 == id))
      = (l.find? (fun p => p.1 == id)).map (fun p => (p.1, g p.2)) := by
  induction l with
  | nil => rfl
  | cons a l ih =>
      simp only [List.map_cons]
      by_cases h : (a.1 == id) = true
      · rw [if_pos h]
        simp only [List.find?_cons, h]
        rfl
      · have hf : (a.1 == id) = false := by simpa using h
        rw [if_neg h]
        simp only [List.find?_cons, hf]
        exact ih

theorem find?_append_left {α : Type} (l1 l2 : List α) (p : α → Bool) (x : α)
    (h : l1.find? p = some x) : (l1 ++ l2).find? p = some x := by
  rw [List.find?_append, h]
  rfl

theorem findSession_updateSessionStatus (db : Db) (id : String)
    (st : SessionStatus) :
    findSession (updateSessionStatus db id st) id
      = (findSession db id).map (fun s => { s with status := st }) := by
  unfold findSession updateSessionStatus
  rw [find?_update_self db.sessions id (fun s => { s with status := st })]
  cases db.sessions.find? (fun p => p.1 == id) <;> rfl

theorem findSession_updateSessionDuration (db : Db) (id : String) (d : Nat) :
    findSession (updateSessionDuration db id d) id
      = (findSession db id).map (fun s => { s with duration := some d }) := by
  unfold findSession updateSessionDuration
  rw [find?_update_self db.sessions id (fun s => { s with duration := some d })]
  cases db.sessions.find? (fun p => p.1 == id) <;> rfl

theorem findSession_stopBackgroundJob (db : Db) (id : String)
    (o : Option SummaryResult) :
    findSession (stopBackgroundJob db id o) id
      = (findSession db id).map
          (fun s => { s with
            fullTranscript := some (String.intercalate " "
              ((sortRowsByIndex (db.transcripts.filter
                (fun r => r.sessionId == id))).map (fun r => r.text))),
            status := .COMPLETED }) := by
  unfold findSession stopBackgroundJob
  dsimp only
  rw [find?_update_self db.sessions id (fun s => { s with
    fullTranscript := some (String.intercalate " "
      ((sortRowsByIndex (db.transcripts.filter
        (fun r => r.sessionId == id))).map (fun r => r.text))),
    status := .COMPLETED })]
  cases db.sessions.find? (fun p => p.1 == id) <;> rfl

/-- C10: generateSummary is total over its inputs: a transcript whose trimmed
length is under 20 characters yields the canned "too short or empty" summary
independently of the model outcome (the model is not consulted), and a failing
model call on a long-enough transcript yields the fallback summary object, so
generateSummary never raises into the stop workflow's summary-error branch. -/
theorem C10_generateSummary_total :
    (∀ (t : String) (o1 o2 : Option SummaryResult),
        (jsTrim t).length < 20 →
        generateSummary t o1 = tooShortSummary ∧
        generateSummary t o1 = generateSummary t o2) ∧
    (∀ t : String, ¬ (t = "" ∨ (jsTrim t).length < 20) →
        generateSummary t none = failedSummary) := by
  refine ⟨fun t o1 o2 h => ?_, fun t h => ?_⟩
  · have hc : t = "" ∨ (jsTrim t).length < 20 := Or.inr h
    unfold generateSummary
    rw [if_pos hc, if_pos hc]
    exact ⟨rfl, rfl⟩
  · unfold generateSummary
    rw [if_neg h]

/-- C10 witness: the short transcript "hi" yields the canned summary even when
the model outcome is present, and a long transcript with a failing model call
yields the fallback object. -/
theorem C10_generateSummary_total_witness :
    generateSummary "hi" (some failedSummary) = tooShortSummary ∧
    generateSummary "This transcript is long enough to summarize." none
      = failedSummary := by
  refine ⟨?_, ?_⟩
  · exact (C10_generateSummary_total.1 "hi" (some failedSummary) none
      (by decide)).1
  · exact C10_generateSummary_total.2
      "This transcript is long enough to summarize." (by decide)

/-- C1 counterexample: a failed transcription call (empty text, confidence 0)
on a bound session persists no transcript row, and the broadcast carries
confidence 0.95 (95 in hundredths), not 0, because of the falsy-coalescing
default in the emit. -/
theorem C1_counterexample :
    (audioChunkHandler ⟨"u1", some "s1"⟩
        ⟨[("s1", ⟨"u1", .RECORDING, none, none⟩)], [], [], []⟩
        "s1" 0 0 none).db.transcripts = [] ∧
    (audioChunkHandler ⟨"u1", some "s1"⟩
        ⟨[("s1", ⟨"u1", .RECORDING, none, none⟩)], [], [], []⟩
        "s1" 0 0 none).emitted = some ⟨"s1", 0, "", 0, 95⟩ ∧
    (95 : Nat) ≠ 0 := by decide

/-- C1 amended: a chunk whose transcription yields empty text (failed call or
silence) is not treated as a processing failure — the handler acknowledges
success and broadcasts a transcription-update with the empty text — but the
broadcast confidence is coerced to 0.95 by the falsy `||` default, and the
empty-text fragment is not persisted. -/
theorem C1_amended_silence_not_failure :
    ∀ (conn : Conn) (db : Db) (sid : String) (i ts : Nat) (o : Option String),
      conn.currentSessionId = some sid →
      (o = none ∨ o = some "") →
      (audioChunkHandler conn db sid i ts o).ack = Ack.ok ∧
      (audioChunkHandler conn db sid i ts o).emitted
        = some ⟨sid, i, "", ts, 95⟩ ∧
      (audioChunkHandler conn db sid i ts o).db = db := by
  intro conn db sid i ts o hb ho
  rcases ho with h | h <;> subst h <;>
    simp [audioChunkHandler, hb, processAudioChunk, confidenceOrDefault]

/-- C1 witness: the amended behavior at a concrete failed-transcription
chunk. -/
theorem C1_amended_witness :
    (audioChunkHandler ⟨"u2", some "s9"⟩ ⟨[], [], [], []⟩
        "s9" 3 7 none).ack = Ack.ok ∧
    (audioChunkHandler ⟨"u2", some "s9"⟩ ⟨[], [], [], []⟩
        "s9" 3 7 none).emitted = some ⟨"s9", 3, "", 7, 95⟩ ∧
    (audioChunkHandler ⟨"u2", some "s9"⟩ ⟨[], [], [], []⟩
        "s9" 3 7 none).db = (⟨[], [], [], []⟩ : Db) :=
  C1_amended_silence_not_failure ⟨"u2", some "s9"⟩ ⟨[], [], [], []⟩
    "s9" 3 7 none rfl (Or.inl rfl)

/-- C4 counterexample: a second start-recording on a connection that already
has an active session bound is acknowledged with success and silently
re-binds the connection to the new session id. -/
theorem C4_counterexample :
    (startRecordingHandler ⟨"u1", some "s1"⟩
        ⟨[("s1", ⟨"u1", .RECORDING, none, none⟩)], [], [], []⟩ "s2").2.2
      = Ack.ok ∧
    (startRecordingHandler ⟨"u1", some "s1"⟩
        ⟨[("s1", ⟨"u1", .RECORDING, none, none⟩)], [], [], []⟩ "s2").1.currentSessionId
      = some "s2" := by decide

/-- C4 amended: a second start-recording while a session is active is not
rejected: the handler unconditionally creates a fresh RECORDING session,
acknowledges success, and silently overrides the connection's binding with
the new session id; the previously bound session's row is left unchanged. -/
theorem C4_amended_second_start_accepted :
    ∀ (conn : Conn) (db : Db) (oldId newId : String) (s : SessionRec),
      conn.currentSessionId = some oldId →
      findSession db oldId = some s →
      findSession db newId = none →
      (startRecordingHandler conn db newId).2.2 = Ack.ok ∧
      (startRecordingHandler conn db newId).1.currentSessionId = some newId ∧
      findSession (startRecordingHandler conn db newId).2.1 oldId = some s ∧
      findSession (startRecordingHandler conn db newId).2.1 newId
        = some ⟨conn.userId, .RECORDING, none, none⟩ := by
  intro conn db oldId newId s hb hfound hfresh
  refine ⟨rfl, rfl, ?_, ?_⟩
  · unfold findSession at hfound ⊢
    obtain ⟨q, hq, hq2⟩ := Option.map_eq_some'.mp hfound
    rw [startRecordingHandler]
    dsimp only
    rw [find?_append_left _ _ _ _ hq, Option.map_some', hq2]
  · unfold findSession at hfresh ⊢
    have h0 : db.sessions.find? (fun p => p.1 == newId) = none :=
      Option.map_eq_none'.mp hfresh
    rw [startRecordingHandler]
    dsimp only
    rw [List.find?_append, h0]
    simp [List.find?]

/-- C4 witness: the amended behavior at a concrete second start. -/
theorem C4_amended_witness :
    (startRecordingHandler ⟨"u1", some "s1"⟩
        ⟨[("s1", ⟨"u1", .RECORDING, none, none⟩)], [], [], []⟩ "s2").2.2
        = Ack.ok ∧
    (startRecordingHandler ⟨"u1", some "s1"⟩
        ⟨[("s1", ⟨"u1", .RECORDING, none, none⟩)], [], [], []⟩ "s2").1.currentSessionId
        = some "s2" ∧
    findSession (startRecordingHandler ⟨"u1", some "s1"⟩
        ⟨[("s1", ⟨"u1", .RECORDING, none, none⟩)], [], [], []⟩ "s2").2.1 "s1"
        = some ⟨"u1", .RECORDING, none, none⟩ ∧
    findSession (startRecordingHandler ⟨"u1", some "s1"⟩
        ⟨[("s1", ⟨"u1", .RECORDING, none, none⟩)], [], [], []⟩ "s2").2.1 "s2"
        = some ⟨"u1", .RECORDING, none, none⟩ :=
  C4_amended_second_start_accepted ⟨"u1", some "s1"⟩
    ⟨[("s1", ⟨"u1", .RECORDING, none, none⟩)], [], [], []⟩ "s1" "s2"
    ⟨"u1", .RECORDING, none, none⟩ rfl (by decide) (by decide)

/-- C9 counterexample: an emit on an existing but disconnected socket is not
rejected immediately; it is handed to the library with buffering. -/
theorem C9_counterexample :
    isImmediateReject (emitStart (some ⟨false⟩)) = false ∧
    emitStart (some ⟨false⟩) = EmitStart.handedToSocket true := by decide

/-- C9 amended: an emit fails immediately only when the socket object is
uninitialized (rejecting with "Socket not initialized"); a request on an
existing but disconnected socket is handed to the library, which buffers it,
rather than failing with a "not connected" error; and a request call that
resolves has received an acknowledgement whose success field is true. -/
theorem C9_amended_reject_only_uninitialized :
    (∀ sock : Option ClientSocket,
        isImmediateReject (emitStart sock) = true ↔ sock = none) ∧
    (∀ resp : Option (Bool × Option String),
        emitCallback resp = Settle.resolved ↔ ∃ e, resp = some (true, e)) := by
  constructor
  · intro sock
    cases sock with
    | none => simp [emitStart, isImmediateReject]
    | some s => simp [emitStart, isImmediateReject]
  · intro resp
    match resp with
    | none => simp [emitCallback]
    | some (true, e) => simp [emitCallback]
    | some (false, e) => cases e <;> simp [emitCallback]

/-- C8: elapsed time is recomputed from the stored timestamps as
(now − segment start) + accumulated prior time, so a pause/resume cycle
contributes exactly the recorded segments; the 10s-record / 5s-pause /
10s-record scenario reports 20 seconds. -/
theorem C8_elapsed_recomputed :
    (∀ (s : TimerState) (st now : Nat), s.startTime = some st →
        (updateElapsedTime now s).elapsedTime
          = (s.accumulatedTime + (now - st)) / 1000) ∧
    (∀ (a e u t1 t2 t3 : Nat),
        (updateElapsedTime t3 (resumeTimer t2 (pauseTimer t1
            ⟨some u, a, e⟩))).elapsedTime
          = (a + (t1 - u) + (t3 - t2)) / 1000) ∧
    (updateElapsedTime 25000 (resumeTimer 15000 (pauseTimer 10000
        (startTimer 0)))).elapsedTime = 20 := by
  refine ⟨fun s st now h => ?_, fun a e u t1 t2 t3 => rfl, by decide⟩
  simp [updateElapsedTime, h]

/-- C8 witness: the recompute formula at a concrete mid-session state. -/
theorem C8_elapsed_recomputed_witness :
    (updateElapsedTime 25000 (⟨some 15000, 10000, 10⟩ : TimerState)).elapsedTime
      = (10000 + (25000 - 15000)) / 1000 :=
  C8_elapsed_recomputed.1 ⟨some 15000, 10000, 10⟩ 15000 25000 rfl

/-- C2 counterexample: the client assembler joins fragment texts without
skipping empty ones, so fragments 0,1,2 with texts "Hello", "", "world"
concatenate to "Hello  world" (double space), not "Hello world". -/
theorem C2_counterexample :
    (List.foldl addTranscriptChunk emptyAssembler
        [⟨0, "Hello", 0, none⟩, ⟨1, "", 1, none⟩, ⟨2, "world", 2, none⟩]).fullTranscript
      = "Hello  world" ∧
    (List.foldl addTranscriptChunk emptyAssembler
        [⟨0, "Hello", 0, none⟩, ⟨1, "", 1, none⟩, ⟨2, "world", 2, none⟩]).fullTranscript
      ≠ "Hello world" := by decide

/-- C2 amended: both joins keep empty-text fragments — the client view of
fragments "Hello", "", "world" is "Hello  world" with a doubled separator —
while the server's finalized transcript for the same three chunks is
"Hello world" only because the server never persists an empty-text fragment,
so the empty chunk is absent from the rows being joined. -/
theorem C2_amended_join_without_skipping :
    (List.foldl addTranscriptChunk emptyAssembler
        [⟨0, "Hello", 0, none⟩, ⟨1, "", 1, none⟩, ⟨2, "world", 2, none⟩]).fullTranscript
      = "Hello  world" ∧
    (findSession
        (stopBackgroundJob
          (stopRecordingHandler
            (audioChunkHandler
              (audioChunkHandler
                (audioChunkHandler ⟨"u1", some "s1"⟩
                  ⟨[("s1", ⟨"u1", .RECORDING, none, none⟩)], [], [], []⟩
                  "s1" 0 0 (some "Hello")).conn
                (audioChunkHandler ⟨"u1", some "s1"⟩
                  ⟨[("s1", ⟨"u1", .RECORDING, none, none⟩)], [], [], []⟩
                  "s1" 0 0 (some "Hello")).db
                "s1" 1 1 (some "")).conn
              (audioChunkHandler
                (audioChunkHandler ⟨"u1", some "s1"⟩
                  ⟨[("s1", ⟨"u1", .RECORDING, none, none⟩)], [], [], []⟩
                  "s1" 0 0 (some "Hello")).conn
                (audioChunkHandler ⟨"u1", some "s1"⟩
                  ⟨[("s1", ⟨"u1", .RECORDING, none, none⟩)], [], [], []⟩
                  "s1" 0 0 (some "Hello")).db
                "s1" 1 1 (some "")).db
              "s1" 2 2 (some "world")).db
            "s1" 15).1
          "s1" (some ⟨"Summary.", [], [], []⟩))
        "s1").map (fun s => (s.status, s.fullTranscript))
      = some (.COMPLETED, some "Hello world") := by decide


/-- findSession ignores the error log, so logError is invisible to it. -/
theorem findSession_logError (db : Db) (a b id : String) :
    findSession (logError db a b) id = findSession db id := rfl

/-- C5: on disconnect, a bound session in RECORDING or PAUSED is marked
FAILED with a CLIENT_DISCONNECTED error logged, while a session that already
reached PROCESSING or COMPLETED is left completely untouched. -/
theorem C5_disconnect_only_active_failed :
    ∀ (conn : Conn) (db : Db) (sid : String) (s : SessionRec),
      conn.currentSessionId = some sid →
      findSession db sid = some s →
      ((s.status = .RECORDING ∨ s.status = .PAUSED) →
        findSession (disconnectHandler conn db) sid
          = some { s with status := .FAILED } ∧
        (disconnectHandler conn db).errorLogs
          = db.errorLogs ++ [(sid, "CLIENT_DISCONNECTED")]) ∧
      ((s.status = .PROCESSING ∨ s.status = .COMPLETED) →
        disconnectHandler conn db = db) := by
  intro conn db sid s hb hf
  constructor
  · intro hact
    have hstep : disconnectHandler conn db
        = logError (updateSessionStatus db sid .FAILED) sid
            "CLIENT_DISCONNECTED" := by
      simp only [disconnectHandler, hb, hf]
      rw [if_pos hact]
    rw [hstep]
    constructor
    · rw [findSession_logError, findSession_updateSessionStatus, hf]
      rfl
    · rfl
  · intro hPC
    have hcond : ¬ (s.status = .RECORDING ∨ s.status = .PAUSED) := by
      rcases hPC with h | h <;> rw [h] <;> decide
    simp only [disconnectHandler, hb, hf]
    rw [if_neg hcond]

/-- C5 witness: a concrete RECORDING session is failed by disconnect, and a
concrete COMPLETED session is untouched. -/
theorem C5_disconnect_witness :
    findSession (disconnectHandler ⟨"u1", some "s1"⟩
        ⟨[("s1", ⟨"u1", .RECORDING, none, none⟩)], [], [], []⟩) "s1"
      = some ⟨"u1", .FAILED, none, none⟩ ∧
    disconnectHandler ⟨"u1", some "s2"⟩
        ⟨[("s2", ⟨"u1", .COMPLETED, some 15, some "Hello world"⟩)], [], [], []⟩
      = ⟨[("s2", ⟨"u1", .COMPLETED, some 15, some "Hello world"⟩)], [], [], []⟩ := by
  constructor
  · exact ((C5_disconnect_only_active_failed ⟨"u1", some "s1"⟩
      ⟨[("s1", ⟨"u1", .RECORDING, none, none⟩)], [], [], []⟩ "s1"
      ⟨"u1", .RECORDING, none, none⟩ rfl (by decide)).1 (Or.inl rfl)).1
  · exact (C5_disconnect_only_active_failed ⟨"u1", some "s2"⟩
      ⟨[("s2", ⟨"u1", .COMPLETED, some 15, some "Hello world"⟩)], [], [], []⟩
      "s2" ⟨"u1", .COMPLETED, some 15, some "Hello world"⟩ rfl (by decide)).2
      (Or.inr rfl)

/-- C3: stop-recording is idempotent. A stop for a session already in
PROCESSING or COMPLETED acknowledges success with no state change and no
background job. A first stop from an active session acknowledges success,
starts the finalization job once, and every later stop — whether the job has
completed or not — is a success no-op, so exactly one summary row is ever
created. -/
theorem C3_stop_idempotent :
    ∀ (db : Db) (sid : String) (dur dur2 : Nat) (s : SessionRec),
      findSession db sid = some s →
      ((s.status = .PROCESSING ∨ s.status = .COMPLETED) →
        stopRecordingHandler db sid dur = (db, Ack.ok, false)) ∧
      ((s.status = .RECORDING ∨ s.status = .PAUSED) →
        (stopRecordingHandler db sid dur).2.1 = Ack.ok ∧
        (stopRecordingHandler db sid dur).2.2 = true ∧
        stopRecordingHandler (stopRecordingHandler db sid dur).1 sid dur2
          = ((stopRecordingHandler db sid dur).1, Ack.ok, false) ∧
        (∀ o : Option SummaryResult,
          stopRecordingHandler
              (stopBackgroundJob (stopRecordingHandler db sid dur).1 sid o)
              sid dur2
            = (stopBackgroundJob (stopRecordingHandler db sid dur).1 sid o,
               Ack.ok, false) ∧
          (stopBackgroundJob (stopRecordingHandler db sid dur).1 sid
              o).summaries.length
            = db.summaries.length + 1)) := by
  intro db sid dur dur2 s hf
  constructor
  · intro hPC
    simp only [stopRecordingHandler, hf]
    rw [if_pos hPC]
  · intro hact
    have hcondF : ¬ (s.status = .PROCESSING ∨ s.status = .COMPLETED) := by
      rcases hact with h | h <;> rw [h] <;> decide
    have hstep : stopRecordingHandler db sid dur
        = (updateSessionDuration (updateSessionStatus db sid .PROCESSING)
            sid dur, Ack.ok, true) := by
      simp only [stopRecordingHandler, hf]
      rw [if_neg hcondF]
    have hdb1 : findSession (updateSessionDuration
        (updateSessionStatus db sid .PROCESSING) sid dur) sid
        = some { s with status := .PROCESSING, duration := some dur } := by
      rw [findSession_updateSessionDuration, findSession_updateSessionStatus,
        hf]
      rfl
    refine ⟨by rw [hstep], by rw [hstep], ?_, ?_⟩
    · rw [hstep]
      simp only [stopRecordingHandler, hdb1]
      simp
    · intro o
      have hdb2 := findSession_stopBackgroundJob (updateSessionDuration
        (updateSessionStatus db sid .PROCESSING) sid dur) sid o
      rw [hdb1] at hdb2
      simp only [Option.map_some'] at hdb2
      constructor
      · rw [hstep]
        simp only [stopRecordingHandler, hdb2]
        simp
      · rw [hstep]
        simp [stopBackgroundJob, updateSessionDuration, updateSessionStatus]

/-- C3 witness: stopping a concrete RECORDING session twice succeeds both
times with the second stop a no-op, and the background job creates exactly
one summary row. -/
theorem C3_stop_idempotent_witness :
    (stopRecordingHandler ⟨[("s1", ⟨"u1", .RECORDING, none, none⟩)], [], [],
        []⟩ "s1" 15).2.1 = Ack.ok ∧
    stopRecordingHandler (stopRecordingHandler
        ⟨[("s1", ⟨"u1", .RECORDING, none, none⟩)], [], [], []⟩ "s1" 15).1
        "s1" 15
      = ((stopRecordingHandler ⟨[("s1", ⟨"u1", .RECORDING, none, none⟩)], [],
          [], []⟩ "s1" 15).1, Ack.ok, false) ∧
    (stopBackgroundJob (stopRecordingHandler
        ⟨[("s1", ⟨"u1", .RECORDING, none, none⟩)], [], [], []⟩ "s1" 15).1
        "s1" none).summaries.length
      = (⟨[("s1", ⟨"u1", .RECORDING, none, none⟩)], [], [], []⟩ :
          Db).summaries.length + 1 := by
  have h := (C3_stop_idempotent
    ⟨[("s1", ⟨"u1", .RECORDING, none, none⟩)], [], [], []⟩ "s1" 15 15
    ⟨"u1", .RECORDING, none, none⟩ (by decide)).2 (Or.inl rfl)
  exact ⟨h.1, h.2.2.1, (h.2.2.2 none).2⟩

/-- C6: when a chunk's declared session id does not match the bound one, the
handler recovers exactly when the session exists, belongs to the same
authenticated user and is in an active status — re-binding the connection
and processing the chunk — and rejects the chunk with a failure
acknowledgement in every other case. -/
theorem C6_chunk_recovery :
    ∀ (conn : Conn) (db : Db) (sid : String) (i ts : Nat) (o : Option String),
      ¬ conn.currentSessionId = some sid →
      ((∀ s : SessionRec, findSession db sid = some s →
          s.userId = conn.userId →
          (s.status = .RECORDING ∨ s.status = .PAUSED) →
          (audioChunkHandler conn db sid i ts o).ack = Ack.ok ∧
          (audioChunkHandler conn db sid i ts o).conn
            = { conn with currentSessionId := some sid } ∧
          (audioChunkHandler conn db sid i ts o).emitted ≠ none) ∧
        (findSession db sid = none →
          audioChunkHandler conn db sid i ts o
            = ⟨conn, db, Ack.err "Session ID mismatch or invalid session",
                none⟩) ∧
        (∀ s : SessionRec, findSession db sid = some s →
          ¬ (s.userId = conn.userId ∧
              (s.status = .RECORDING ∨ s.status = .PAUSED)) →
          audioChunkHandler conn db sid i ts o
            = ⟨conn, db, Ack.err "Session ID mismatch or invalid session",
                none⟩)) := by
  intro conn db sid i ts o hmis
  refine ⟨?_, ?_, ?_⟩
  · intro s hf hu hst
    simp only [audioChunkHandler, if_neg hmis, hf]
    rw [if_pos (And.intro hu hst)]
    exact ⟨rfl, rfl, by simp⟩
  · intro hf
    simp only [audioChunkHandler, if_neg hmis, hf]
  · intro s hf hcond
    simp only [audioChunkHandler, if_neg hmis, hf]
    rw [if_neg hcond]

/-- C6 witness: a concrete mismatched chunk recovers onto the caller's own
active session, and is rejected when the session belongs to another user. -/
theorem C6_chunk_recovery_witness :
    (audioChunkHandler ⟨"u1", none⟩
        ⟨[("s1", ⟨"u1", .RECORDING, none, none⟩)], [], [], []⟩
        "s1" 0 0 (some "Hi")).ack = Ack.ok ∧
    (audioChunkHandler ⟨"u1", none⟩
        ⟨[("s1", ⟨"u1", .RECORDING, none, none⟩)], [], [], []⟩
        "s1" 0 0 (some "Hi")).conn = ⟨"u1", some "s1"⟩ ∧
    audioChunkHandler ⟨"u2", none⟩
        ⟨[("s1", ⟨"u1", .RECORDING, none, none⟩)], [], [], []⟩
        "s1" 0 0 (some "Hi")
      = ⟨⟨"u2", none⟩, ⟨[("s1", ⟨"u1", .RECORDING, none, none⟩)], [], [], []⟩,
          Ack.err "Session ID mismatch or invalid session", none⟩ := by
  have h1 := ((C6_chunk_recovery ⟨"u1", none⟩
    ⟨[("s1", ⟨"u1", .RECORDING, none, none⟩)], [], [], []⟩
    "s1" 0 0 (some "Hi") (by decide)).1 ⟨"u1", .RECORDING, none, none⟩
    (by decide) rfl (Or.inl rfl))
  have h2 := ((C6_chunk_recovery ⟨"u2", none⟩
    ⟨[("s1", ⟨"u1", .RECORDING, none, none⟩)], [], [], []⟩
    "s1" 0 0 (some "Hi") (by decide)).2.2 ⟨"u1", .RECORDING, none, none⟩
    (by decide) (by decide))
  exact ⟨h1.1, h1.2.1, h2⟩



/-! Infrastructure lemmas for the assembler's set-semantics property. -/

theorem emptyAssembler_good : GoodAssembler emptyAssembler :=
  ⟨List.sorted_nil, List.nodup_nil, rfl⟩

/-- The duplicate-index guard fires exactly when the index is present. -/
theorem dup_guard_iff (s : AssemblerState) (c : TranscriptChunk) :
    (s.transcriptChunks.any (fun x => x.chunkIndex == c.chunkIndex) = true)
      ↔ ∃ x ∈ s.transcriptChunks, x.chunkIndex = c.chunkIndex := by
  rw [List.any_eq_true]
  constructor
  · rintro ⟨x, hx, he⟩
    exact ⟨x, hx, by simpa using he⟩
  · rintro ⟨x, hx, he⟩
    exact ⟨x, hx, by simpa using he⟩

/-- Adding a fragment whose chunk index is already present is a no-op. -/
theorem addTranscriptChunk_of_dup (s : AssemblerState) (c : TranscriptChunk)
    (h : ∃ x ∈ s.transcriptChunks, x.chunkIndex = c.chunkIndex) :
    addTranscriptChunk s c = s := by
  unfold addTranscriptChunk
  rw [if_pos ((dup_guard_iff s c).mpr h)]

/-- addTranscriptChunk preserves the well-formedness invariant. -/
theorem addTranscriptChunk_good (s : AssemblerState) (c : TranscriptChunk)
    (hg : GoodAssembler s) : GoodAssembler (addTranscriptChunk s c) := by
  by_cases h : (s.transcriptChunks.any
      (fun x => x.chunkIndex == c.chunkIndex) = true)
  · unfold addTranscriptChunk
    rw [if_pos h]
    exact hg
  · unfold addTranscriptChunk
    rw [if_neg h]
    have hperm := List.perm_insertionSort chunkLE (s.transcriptChunks ++ [c])
    refine ⟨List.sorted_insertionSort chunkLE _, ?_, rfl⟩
    have hidx : c.chunkIndex ∉
        s.transcriptChunks.map (fun x => x.chunkIndex) := by
      intro hmem
      obtain ⟨x, hx, he⟩ := List.mem_map.mp hmem
      exact h ((dup_guard_iff s c).mpr ⟨x, hx, he⟩)
    have hnd : ((s.transcriptChunks ++ [c]).map
        (fun x => x.chunkIndex)).Nodup := by
      rw [List.map_append]
      exact List.nodup_append.mpr ⟨hg.2.1, List.nodup_singleton _,
        List.disjoint_singleton.mpr hidx⟩
    exact ((hperm.map (fun x => x.chunkIndex)).nodup_iff).mpr hnd

/-- Membership after addTranscriptChunk, assuming no two distinct fragments
in play share a chunk index. -/
theorem mem_addTranscriptChunk (s : AssemblerState) (c : TranscriptChunk)
    (hcs : ∀ y ∈ s.transcriptChunks, y.chunkIndex = c.chunkIndex → y = c) :
    ∀ x, x ∈ (addTranscriptChunk s c).transcriptChunks ↔
      (x = c ∨ x ∈ s.transcriptChunks) := by
  intro x
  by_cases h : (s.transcriptChunks.any
      (fun x => x.chunkIndex == c.chunkIndex) = true)
  · obtain ⟨y, hy, he⟩ := (dup_guard_iff s c).mp h
    have hc : c ∈ s.transcriptChunks := (hcs y hy he) ▸ hy
    unfold addTranscriptChunk
    rw [if_pos h]
    constructor
    · exact Or.inr
    · rintro (rfl | hx)
      · exact hc
      · exact hx
  · unfold addTranscriptChunk
    rw [if_neg h]
    have hperm := List.perm_insertionSort chunkLE (s.transcriptChunks ++ [c])
    show x ∈ List.insertionSort chunkLE (s.transcriptChunks ++ [c]) ↔
      (x = c ∨ x ∈ s.transcriptChunks)
    rw [hperm.mem_iff, List.mem_append, List.mem_singleton]
    tauto

/-- Folding addTranscriptChunk over deliveries with functionally-indexed
fragments keeps the invariant and reaches exactly the delivered set. -/
theorem foldl_add_good_mem (l : List TranscriptChunk) :
    ∀ s : AssemblerState, GoodAssembler s →
    (∀ a, (a ∈ s.transcriptChunks ∨ a ∈ l) →
      ∀ b, (b ∈ s.transcriptChunks ∨ b ∈ l) →
        a.chunkIndex = b.chunkIndex → a = b) →
    GoodAssembler (List.foldl addTranscriptChunk s l) ∧
    (∀ x, x ∈ (List.foldl addTranscriptChunk s l).transcriptChunks ↔
      (x ∈ s.transcriptChunks ∨ x ∈ l)) := by
  induction l with
  | nil =>
      intro s hg _
      exact ⟨hg, fun x => by simp⟩
  | cons c l ih =>
      intro s hg hfun
      have hcs : ∀ y ∈ s.transcriptChunks,
          y.chunkIndex = c.chunkIndex → y = c :=
        fun y hy he =>
          hfun y (Or.inl hy) c (Or.inr (List.mem_cons_self c l)) he
      have hmemstep := mem_addTranscriptChunk s c hcs
      have hg1 := addTranscriptChunk_good s c hg
      have hsub : ∀ a, (a ∈ (addTranscriptChunk s c).transcriptChunks ∨
          a ∈ l) → (a ∈ s.transcriptChunks ∨ a ∈ c :: l) := by
        intro a ha
        rcases ha with ha | ha
        · rcases (hmemstep a).mp ha with rfl | ha2
          · exact Or.inr (List.mem_cons_self a l)
          · exact Or.inl ha2
        · exact Or.inr (List.mem_cons_of_mem c ha)
      have hfun1 : ∀ a, (a ∈ (addTranscriptChunk s c).transcriptChunks ∨
          a ∈ l) → ∀ b, (b ∈ (addTranscriptChunk s c).transcriptChunks ∨
          b ∈ l) → a.chunkIndex = b.chunkIndex → a = b :=
        fun a ha b hb he => hfun a (hsub a ha) b (hsub b hb) he
      obtain ⟨hgf, hmemf⟩ := ih (addTranscriptChunk s c) hg1 hfun1
      refine ⟨by simpa only [List.foldl_cons] using hgf, fun x => ?_⟩
      rw [List.foldl_cons, hmemf x, hmemstep x, List.mem_cons]
      tauto

/-- Two well-formed fragment lists with the same members coincide. -/
theorem chunks_eq_of_mem_iff (l1 l2 : List TranscriptChunk)
    (hs1 : l1.Sorted chunkLE)
    (hn1 : (l1.map (fun c => c.chunkIndex)).Nodup)
    (hs2 : l2.Sorted chunkLE)
    (hn2 : (l2.map (fun c => c.chunkIndex)).Nodup)
    (hmem : ∀ x, x ∈ l1 ↔ x ∈ l2) : l1 = l2 := by
  have hlt1 : l1.Sorted chunkLT :=
    (hs1.and (List.pairwise_map.mp hn1)).imp
      (fun h => Nat.lt_of_le_of_ne h.1 h.2)
  have hlt2 : l2.Sorted chunkLT :=
    (hs2.and (List.pairwise_map.mp hn2)).imp
      (fun h => Nat.lt_of_le_of_ne h.1 h.2)
  have hnd1 : l1.Nodup :=
    hlt1.imp (fun h he => absurd (he ▸ h) (Nat.lt_irrefl _))
  have hnd2 : l2.Nodup :=
    hlt2.imp (fun h he => absurd (he ▸ h) (Nat.lt_irrefl _))
  exact List.eq_of_perm_of_sorted
    ((List.perm_ext_iff_of_nodup hnd1 hnd2).mpr hmem) hlt1 hlt2

/-- Assembler states with equal fields are equal. -/
theorem assemblerState_eq (a b : AssemblerState)
    (h1 : a.transcriptChunks = b.transcriptChunks)
    (h2 : a.fullTranscript = b.fullTranscript) : a = b := by
  cases a
  cases b
  simp only at h1 h2
  rw [h1, h2]

/-- C7: the assembler is insensitive to duplicate delivery and to delivery
order — adding a fragment whose chunk index already exists leaves the state
unchanged, and folding any two deliveries with the same member set (no two
distinct fragments sharing an index) from the empty state produces the
identical state, hence the identical full transcript. -/
theorem C7_assembler_set_semantics :
    (∀ (s : AssemblerState) (c : TranscriptChunk),
        (∃ x ∈ s.transcriptChunks, x.chunkIndex = c.chunkIndex) →
        addTranscriptChunk s c = s) ∧
    (∀ l1 l2 : List TranscriptChunk,
        (∀ a ∈ l1, ∀ b ∈ l1, a.chunkIndex = b.chunkIndex → a = b) →
        (∀ x, x ∈ l1 ↔ x ∈ l2) →
        List.foldl addTranscriptChunk emptyAssembler l1
          = List.foldl addTranscriptChunk emptyAssembler l2) := by
  constructor
  · exact addTranscriptChunk_of_dup
  · intro l1 l2 hfun hmem
    have hemp : ∀ a : TranscriptChunk,
        a ∉ emptyAssembler.transcriptChunks := by
      intro a ha
      simp [emptyAssembler] at ha
    have h1 := foldl_add_good_mem l1 emptyAssembler emptyAssembler_good (by
      intro a ha b hb he
      rcases ha with ha | ha
      · exact absurd ha (hemp a)
      rcases hb with hb | hb
      · exact absurd hb (hemp b)
      exact hfun a ha b hb he)
    have h2 := foldl_add_good_mem l2 emptyAssembler emptyAssembler_good (by
      intro a ha b hb he
      rcases ha with ha | ha
      · exact absurd ha (hemp a)
      rcases hb with hb | hb
      · exact absurd hb (hemp b)
      exact hfun a ((hmem a).mpr ha) b ((hmem b).mpr hb) he)
    obtain ⟨⟨hs1, hn1, ht1⟩, hm1⟩ := h1
    obtain ⟨⟨hs2, hn2, ht2⟩, hm2⟩ := h2
    have hchunks := chunks_eq_of_mem_iff _ _ hs1 hn1 hs2 hn2 (by
      intro x
      rw [hm1 x, hm2 x]
      constructor
      · rintro (hx | hx)
        · exact absurd hx (hemp x)
        · exact Or.inr ((hmem x).mp hx)
      · rintro (hx | hx)
        · exact absurd hx (hemp x)
        · exact Or.inr ((hmem x).mpr hx))
    exact assemblerState_eq _ _ hchunks (by rw [ht1, ht2, hchunks])

/-- C7 witness: delivering fragments for indices 2,0,1 equals delivering
them in order 0,1,2, and re-adding an existing index is a no-op. -/
theorem C7_assembler_set_semantics_witness :
    List.foldl addTranscriptChunk emptyAssembler
        [⟨2, "world", 2, none⟩, ⟨0, "Hello", 0, none⟩, ⟨1, "there", 1, none⟩]
      = List.foldl addTranscriptChunk emptyAssembler
        [⟨0, "Hello", 0, none⟩, ⟨1, "there", 1, none⟩, ⟨2, "world", 2, none⟩] ∧
    addTranscriptChunk
        (addTranscriptChunk emptyAssembler ⟨0, "Hello", 0, none⟩)
        ⟨0, "duplicate", 9, none⟩
      = addTranscriptChunk emptyAssembler ⟨0, "Hello", 0, none⟩ := by
  constructor
  · exact C7_assembler_set_semantics.2
      [⟨2, "world", 2, none⟩, ⟨0, "Hello", 0, none⟩, ⟨1, "there", 1, none⟩]
      [⟨0, "Hello", 0, none⟩, ⟨1, "there", 1, none⟩, ⟨2, "world", 2, none⟩]
      (by decide)
      (by
        intro x
        simp only [List.mem_cons, List.not_mem_nil, or_false]
        tauto)
  · exact C7_assembler_set_semantics.1
      (addTranscriptChunk emptyAssembler ⟨0, "Hello", 0, none⟩)
      ⟨0, "duplicate", 9, none⟩
      ⟨⟨0, "Hello", 0, none⟩, by decide, rfl⟩


end ScribeAI
